import Mathlib

/-!
Shallow embedding of the debugger-integration engine of this repository
(`DebugManager`, src part_001) and verification of the specification's
claims about it.  Strings are modelled as `List Char`, the `QHash`
correlation table as an association list with replace-on-insert
semantics, and the `std::function` response handlers as values of an
abstract handler type `H` whose invocations are recorded in a trace.
-/

set_option autoImplicit false

namespace DebugManager

/-- ASCII digit character for a value `0 ≤ n ≤ 9` (`'0' + n`). -/
def natDigitChar (n : Nat) : Char := Char.ofNat (48 + n)

/-- Fuel-driven decimal rendering accumulator: renders the decimal digits
of `n` in front of `acc`.  Mirrors the base-10 rendering performed by
`QString::arg(int, fieldWidth, base 10, fill)`. -/
def drAux : Nat → Nat → List Char → List Char
  | 0, _, acc => acc
  | fuel + 1, n, acc =>
    if n < 10 then natDigitChar n :: acc
    else drAux fuel (n / 10) (natDigitChar (n % 10) :: acc)

/-- Decimal rendering of a natural number, most significant digit first. -/
def decimalRender (n : Nat) : List Char := drAux (n + 1) n []

/-- `QString{"%1"}.arg(tokenCounter, 6, 10, QChar{'0'})` from
`DebugManager::command`: the decimal rendering of `n`, left padded with
`'0'` to field width 6 (no truncation when longer). -/
def pad6 (n : Nat) : List Char :=
  List.replicate (6 - (decimalRender n).length) '0' ++ decimalRender n

/-- `QHash::value(k)` on the association-list model: the value stored at
key `k`, if any. -/
def hashValue {V : Type} (t : List (Nat × V)) (k : Nat) : Option V :=
  match t.find? (fun p => p.1 == k) with
  | some p => some p.2
  | none => none

/-- `QHash::remove(k)`: drop every pair stored under key `k`. -/
def hashRemove {V : Type} (t : List (Nat × V)) (k : Nat) : List (Nat × V) :=
  t.filter (fun p => !(p.1 == k))

/-- `QHash::insert(k, v)`: replaces any value already stored at `k`
(QHash keeps a single value per key). -/
def hashInsert {V : Type} (t : List (Nat × V)) (k : Nat) (v : V) : List (Nat × V) :=
  (k, v) :: hashRemove t k

/-- `QHash::contains(k)`. -/
def hashContains {V : Type} (t : List (Nat × V)) (k : Nat) : Bool :=
  (hashValue t k).isSome

/-- `ResponseEntry::ResponseAction_t` (debugmanager.h): whether a
registered handler is dropped after its first dispatch (`Temporal`, the
spec's OneShot) or kept (`Persistent`). -/
inductive ResponseAction
  | Temporal
  | Persistent
deriving DecidableEq

/-- `DebugManager::ResponseEntry`: a registered response action and
handler.  The handler closure is abstracted to a value of type `H`. -/
structure ResponseEntry (H : Type) where
  action : ResponseAction
  handler : H
deriving DecidableEq

/-- `QProcess::ProcessState`. -/
inductive ProcState
  | NotRunning
  | Starting
  | Running
deriving DecidableEq

/-- The protocol adapter selected by `DebugManager::initDebugger`; the
only concrete variant in the source is `GDBDebugger`. -/
inductive AdapterKind
  | GDBDebugger
deriving DecidableEq

/-- The observable state of `DebugManagerPrivate` together with the
relevant state of its `QProcess`:
`debugger`, `tempBuffer`, `resposeExpected` (sic, the source's spelling)
and `tokenCounter` are the fields of `DebugManagerPrivate`;
`processState`, `processProgram` and `processArguments` model the owned
`QProcess`. -/
structure State (H : Type) where
  debugger : Option AdapterKind
  processState : ProcState
  processProgram : List Char
  processArguments : List (List Char)
  tempBuffer : List Char
  resposeExpected : List (Nat × ResponseEntry H)
  tokenCounter : Nat
deriving DecidableEq

/-- Result of one command emission: the successor state, the list of
byte strings passed to `QProcess::write`, and the text handed to
`Debugger::handleOutputStreamText`. -/
structure CommandResult (H : Type) where
  state : State H
  writes : List (List Char)
  log : List Char
deriving DecidableEq

/-- `DebugManager::command` (part_001 lines 131-141): format the
6-digit zero-padded token, concatenate command text and a newline,
advance the token counter modulo 999999, write the line to the process
and log it.  Note there is no session-state check of any kind. -/
def command {H : Type} (st : State H) (cmd : List Char) : CommandResult H :=
  let tokStr := pad6 st.tokenCounter
  let line := tokStr ++ cmd ++ ['\n']
  { state := { st with tokenCounter := (st.tokenCounter + 1) % 999999 },
    writes := [line],
    log := ['C', 'o', 'm', 'm', 'a', 'n', 'd', ':'] ++ line ++ ['\n'] }

/-- `DebugManager::commandAndResponse` (lines 143-149): insert a
response entry at the current token counter (a plain `QHash::insert`),
then emit the command. -/
def commandAndResponse {H : Type} (st : State H) (cmd : List Char)
    (handler : H) (action : ResponseAction) : CommandResult H :=
  command
    { st with resposeExpected :=
        hashInsert st.resposeExpected st.tokenCounter ⟨action, handler⟩ }
    cmd

/-- `DebugManager::updateExceptResponse` (lines 180-188), acting on the
correlation table: if the token is registered, invoke its handler with
the payload (recorded in the returned invocation trace) and remove the
entry when its action is `Temporal`; otherwise do nothing. -/
def updateExceptResponse {H P : Type} (t : List (Nat × ResponseEntry H))
    (token : Nat) (payload : P) :
    List (Nat × ResponseEntry H) × List (H × P) :=
  match hashValue t token with
  | some e =>
      (if e.action = ResponseAction.Temporal then hashRemove t token else t,
       [(e.handler, payload)])
  | none => (t, [])

/-- The `QProcess::started` connection (lines 66-70): the process has
entered the Running state, the token counter is reset to 0 and the line
buffer and correlation table are cleared. -/
def onProcessStarted {H : Type} (st : State H) : State H :=
  { st with
    processState := ProcState.Running
    tokenCounter := 0
    tempBuffer := []
    resposeExpected := [] }

/-- Signals emitted by `DebugManager`. -/
inductive ManagerSignal
  | gdbProcessTerminated
deriving DecidableEq

/-- The `QProcess::finished` connection (lines 72-74): the process has
left the Running state and the `gdbProcessTerminated` signal is emitted;
nothing else in the source reacts to process termination. -/
def onProcessFinished {H : Type} (st : State H) : State H × List ManagerSignal :=
  ({ st with processState := ProcState.NotRunning },
   [ManagerSignal.gdbProcessTerminated])

/-- `DebugManager::isExecuting` (lines 112-115). -/
def isExecuting {H : Type} (st : State H) : Bool :=
  st.processState != ProcState.NotRunning

/-- `DebugManager::execute` (lines 117-129): return immediately when
already executing; otherwise prepend the adapter's pre-launch arguments
one by one, set the program to the adapter's program, and start the
process.  `preArguments` and `debuggerProgram` stand for
`d->debugger->preArguments()` and `d->debugger->program()`. -/
def execute {H : Type} (st : State H) (preArguments : List (List Char))
    (debuggerProgram : List Char) : State H :=
  if isExecuting st then st
  else
    { st with
      processArguments := preArguments.foldl (fun a arg => arg :: a) st.processArguments
      processProgram := debuggerProgram
      processState := ProcState.Starting }

/-- `QString::contains(needle)` (case sensitive, the Qt default):
`needle` occurs as a contiguous substring of `hay`. -/
def qstringContains (hay needle : List Char) : Bool :=
  match hay with
  | [] => needle.isEmpty
  | _ :: t => needle.isPrefixOf hay || qstringContains t needle

/-- `DebugManager::initDebugger` (lines 89-95): store the argument list
in the process unconditionally; select the GDB adapter exactly when the
program string contains `"gdb"`, and otherwise leave the debugger field
untouched. -/
def initDebugger {H : Type} (st : State H) (program : List Char)
    (arguments : List (List Char)) : State H :=
  { st with
    processArguments := arguments
    debugger :=
      if qstringContains program ['g', 'd', 'b'] then some AdapterKind.GDBDebugger
      else st.debugger }

/-- Operations on the `ConditionLockEx` Sync Bridge, in program order. -/
inductive SyncAction
  | waitL
  | fireL
deriving DecidableEq

/-- Result of a blocking operation: successor state, written lines and
the Sync Bridge operations performed, in order. -/
structure BlockingResult (H : Type) where
  state : State H
  writes : List (List Char)
  syncs : List SyncAction
deriving DecidableEq

/-- `DebugManager::stackListFrames` (lines 205-209): a plain `command`
with the adapter's stack-list-frames text, followed by `waitLocker()`.
No response entry is registered by this operation. -/
def stackListFrames {H : Type} (st : State H) (cmdText : List Char) : BlockingResult H :=
  let r := command st cmdText
  { state := r.state, writes := r.writes, syncs := [SyncAction.waitL] }

/-- `DebugManager::stackListVariables` (lines 211-215): plain `command`
followed by `waitLocker()`. -/
def stackListVariables {H : Type} (st : State H) (cmdText : List Char) : BlockingResult H :=
  let r := command st cmdText
  { state := r.state, writes := r.writes, syncs := [SyncAction.waitL] }

/-- `DebugManager::threadInfo` (lines 217-221): plain `command` followed
by `waitLocker()`. -/
def threadInfo {H : Type} (st : State H) (cmdText : List Char) : BlockingResult H :=
  let r := command st cmdText
  { state := r.state, writes := r.writes, syncs := [SyncAction.waitL] }

/-- One character of the `readyReadStandardOutput` connection
(lines 47-64): CR or LF flushes the pending buffer (plus the
terminator) to `Debugger::handleOutputRecord`; any other character is
appended to the buffer. -/
def handleChar {H : Type} (st : State H) (c : Char) : State H × List (List Char) :=
  if c = '\r' ∨ c = '\n' then
    ({ st with tempBuffer := [] }, [st.tempBuffer ++ [c]])
  else
    ({ st with tempBuffer := st.tempBuffer ++ [c] }, [])

/-- A breakpoint record, per the spec's data model (§3):
`{id, file, line, enabled}`, the id assigned by the debugger. -/
structure Breakpoint where
  id : Nat
  file : List Char
  line : Nat
  enabled : Bool
deriving DecidableEq

/-- MI result-record class values (spec §4.2): `done`, `running`,
`connected`, `exit` (success family) and `error` (failure family). -/
inductive ResultClass
  | done
  | running
  | connected
  | exit
  | error
deriving DecidableEq

/-- Modelled from the spec: the portion of an MI result record that a
breakpoint interpreter consumes — its result class, the parsed `bkpt`
payload when present, and the failure message carried by an error-class
payload (§4.2: the error payload "contains a message routed to the
handler as a failure"). The MI payload grammar itself lives in
`gdbdebugger.cpp` / `gdbmiparser`, which is not under `src/`. -/
structure BreakResult where
  rclass : ResultClass
  bkpt : Option Breakpoint
  msg : List Char
deriving DecidableEq

/-- The breakpoint table, keyed by debugger-assigned id. -/
def BreakTable : Type := List (Nat × Breakpoint)

/-- Modelled from the spec: `GDBDebugger::parseBreakPoint`
(gdbdebugger.cpp, not under `src/`), the interpreter registered by
`DebugManager::breakInsert`.  Per §4.3 a successful insert response
adds exactly one breakpoint keyed by the debugger-assigned id, and "on
an error-class result the interpreter must not mutate state; it
surfaces a descriptive failure instead". -/
def parseBreakPoint (t : BreakTable) (res : BreakResult) :
    BreakTable × Option (List Char) :=
  match res.rclass with
  | ResultClass.error => (t, some res.msg)
  | _ =>
    match res.bkpt with
    | some bp => (hashInsert t bp.id bp, none)
    | none => (t, none)

/-- Modelled from the spec: `GDBDebugger::removeBreakPoint`
(gdbdebugger.cpp, not under `src/`), the interpreter registered by
`DebugManager::breakRemove` for a given breakpoint id: on success it
removes exactly that id; on an error-class result it must not mutate
and surfaces the failure. -/
def removeBreakPoint (t : BreakTable) (bpid : Nat) (res : BreakResult) :
    BreakTable × Option (List Char) :=
  match res.rclass with
  | ResultClass.error => (t, some res.msg)
  | _ => (hashRemove t bpid, none)

/-- Modelled from the spec: `GDBDebugger::clearBreakPoint`
(gdbdebugger.cpp, not under `src/`), the interpreter registered by
`DebugManager::breakRemoveAll`: on success it empties the table
regardless of prior size; on an error-class result it must not mutate
and surfaces the failure. -/
def clearBreakPoint (t : BreakTable) (res : BreakResult) :
    BreakTable × Option (List Char) :=
  match res.rclass with
  | ResultClass.error => (t, some res.msg)
  | _ => ([], none)

/-- The handler closures registered by `DebugManager::breakInsert`,
`DebugManager::breakRemove` and `DebugManager::breakRemoveAll`
(part_001 lines 166-178 and 198-203): each delegates the received
payload to the corresponding breakpoint interpreter. -/
inductive BreakHandler
  | insertH
  | removeH (bpid : Nat)
  | removeAllH
deriving DecidableEq

/-- Run a registered breakpoint handler on a delivered result. -/
def runBreakHandler : BreakHandler → BreakResult → BreakTable → BreakTable × Option (List Char)
  | BreakHandler.insertH, r, t => parseBreakPoint t r
  | BreakHandler.removeH bpid, r, t => removeBreakPoint t bpid r
  | BreakHandler.removeAllH, r, t => clearBreakPoint t r

/-- One fire-and-forget command step, as folded over a command list. -/
def commandStep {H : Type} (st : State H) (cmd : List Char) : State H :=
  (command st cmd).state

/-- A concrete freshly-constructed manager: no adapter selected, process
not running, all buffers and tables empty, token counter 0. -/
def freshState : State Nat :=
  { debugger := none
    processState := ProcState.NotRunning
    processProgram := []
    processArguments := []
    tempBuffer := []
    resposeExpected := []
    tokenCounter := 0 }

/-- `freshState` after `initDebugger` with a gdb program: adapter
selected, process still not running. -/
def notRunningGdb : State Nat := initDebugger freshState ['g', 'd', 'b'] []

/-- `notRunningGdb` after the process-started event: a running fresh
session. -/
def runningState : State Nat := onProcessStarted notRunningGdb

/-- The rendering accumulator adds at most `k + 1` characters when its
input is below `10 ^ (k + 1)`. -/
theorem drAux_length_le (fuel : Nat) : ∀ (n : Nat) (acc : List Char) (k : Nat), n < 10 ^ (k + 1) →
    (drAux fuel n acc).length ≤ (k + 1) + acc.length := by
  induction fuel with
  | zero =>
    intro n acc k _
    simp [drAux]
  | succ fuel ih =>
    intro n acc k h
    by_cases h10 : n < 10
    · simp [drAux, h10]
      omega
    · simp only [drAux, h10, if_false]
      cases k with
      | zero =>
        exact absurd (by simpa using h) h10
      | succ k =>
        have hdiv : n / 10 < 10 ^ (k + 1) := by
          rw [Nat.div_lt_iff_lt_mul (by norm_num)]
          calc n < 10 ^ (k + 1 + 1) := h
            _ = 10 ^ (k + 1) * 10 := by ring
        have := ih (n / 10) (natDigitChar (n % 10) :: acc) k hdiv
        simp at this ⊢
        omega

/-- The decimal rendering of `n < 10 ^ (k + 1)` has at most `k + 1`
digits. -/
theorem decimalRender_length_le (n k : Nat) (h : n < 10 ^ (k + 1)) :
    (decimalRender n).length ≤ k + 1 := by
  have := drAux_length_le (n + 1) n [] k h
  simpa [decimalRender] using this

/-- Every token value below 1,000,000 renders as exactly 6 characters
after zero padding. -/
theorem pad6_length (n : Nat) (h : n < 1000000) : (pad6 n).length = 6 := by
  have h6 : (decimalRender n).length ≤ 6 := by
    have h10 : n < 10 ^ (5 + 1) := by norm_num; omega
    exact decimalRender_length_le n 5 h10
  simp [pad6]
  omega

/-- Removing a key from the table makes lookups of that key fail. -/
theorem hashValue_hashRemove_self {V : Type} (t : List (Nat × V)) (k : Nat) :
    hashValue (hashRemove t k) k = none := by
  induction t with
  | nil => rfl
  | cons p t ih =>
    by_cases hpk : p.1 == k
    · simpa [hashRemove, List.filter_cons, hpk] using ih
    · simpa [hashRemove, hashValue, List.filter_cons, List.find?, hpk] using ih

/-- A fire-and-forget command leaves the correlation table untouched, so
any fold of command steps does as well. -/
theorem foldl_command_resposeExpected {H : Type} (cs : List (List Char)) :
    ∀ st : State H,
      (cs.foldl commandStep st).resposeExpected = st.resposeExpected := by
  induction cs with
  | nil => intro st; rfl
  | cons c cs ih =>
    intro st
    simpa [List.foldl_cons] using ih (commandStep st c)

/-- Folding `n` command steps over a state whose counter is in range
advances the token counter to `(tokenCounter + n) % 999999`. -/
theorem foldl_command_tokenCounter {H : Type} (cs : List (List Char)) :
    ∀ st : State H, st.tokenCounter < 999999 →
      (cs.foldl commandStep st).tokenCounter
        = (st.tokenCounter + cs.length) % 999999 := by
  induction cs with
  | nil =>
    intro st h
    simpa using (Nat.mod_eq_of_lt h).symm
  | cons c cs ih =>
    intro st h
    have hstep : (commandStep st c).tokenCounter = (st.tokenCounter + 1) % 999999 := rfl
    have hlt : (commandStep st c).tokenCounter < 999999 := by
      rw [hstep]; exact Nat.mod_lt _ (by norm_num)
    have := ih (commandStep st c) hlt
    rw [List.foldl_cons, this, hstep, Nat.mod_add_mod]
    simp [List.length_cons]
    omega

/-- Claim C3 (confirmed): for every process-started event, regardless of
how many correlation entries were pending and what the token counter was
beforehand, afterwards the token counter equals 0, the correlation table
is empty, and the partial-line buffer is empty. -/
theorem c3_process_started_resets {H : Type} (st : State H) :
    (onProcessStarted st).tokenCounter = 0 ∧
    (onProcessStarted st).resposeExpected = [] ∧
    (onProcessStarted st).tempBuffer = [] :=
  ⟨rfl, rfl, rfl⟩

/-- Claim C2 (confirmed): dispatching a result payload to a token with a
registered `Temporal` (OneShot) entry invokes its handler exactly once
— with that payload — and removes the entry; a `Persistent` entry is
invoked and retained; an unregistered token leaves the correlation
table unchanged and invokes nothing, so every cache (any fold of the
empty invocation trace) is left unchanged. -/
theorem c2_dispatch_spec {H P : Type} (t : List (Nat × ResponseEntry H))
    (tok : Nat) (payload : P) :
    (∀ e : ResponseEntry H, hashValue t tok = some e →
      (updateExceptResponse t tok payload).2 = [(e.handler, payload)] ∧
      (e.action = ResponseAction.Temporal →
        (updateExceptResponse t tok payload).1 = hashRemove t tok ∧
        hashContains (updateExceptResponse t tok payload).1 tok = false) ∧
      (e.action = ResponseAction.Persistent →
        (updateExceptResponse t tok payload).1 = t)) ∧
    (hashValue t tok = none →
      (updateExceptResponse t tok payload).1 = t ∧
      (updateExceptResponse t tok payload).2 = [] ∧
      ∀ (γ : Type) (f : H → P → γ → γ) (c : γ),
        (updateExceptResponse t tok payload).2.foldl (fun x hp => f hp.1 hp.2 x) c = c) := by
  constructor
  · intro e he
    refine ⟨?_, ?_, ?_⟩
    · simp [updateExceptResponse, he]
    · intro ha
      constructor
      · simp [updateExceptResponse, he, ha]
      · simp [updateExceptResponse, he, ha, hashContains, hashValue_hashRemove_self]
    · intro ha
      simp [updateExceptResponse, he, ha]
  · intro he
    refine ⟨?_, ?_, ?_⟩
    · simp [updateExceptResponse, he]
    · simp [updateExceptResponse, he]
    · intro γ f c
      simp [updateExceptResponse, he]

/-- Witness for C2 at concrete inputs: a `Temporal` entry at token 3 is
invoked with its payload and its token no longer resolves afterwards; a
`Persistent` table is kept; an empty table is unaffected. -/
theorem c2_dispatch_spec_witness :
    (updateExceptResponse [(3, ResponseEntry.mk ResponseAction.Temporal (4 : Nat))] 3 (0 : Nat)).2
      = [((4 : Nat), (0 : Nat))] ∧
    hashContains
      (updateExceptResponse [(3, ResponseEntry.mk ResponseAction.Temporal (4 : Nat))] 3 (0 : Nat)).1 3
      = false ∧
    (updateExceptResponse [(3, ResponseEntry.mk ResponseAction.Persistent (4 : Nat))] 3 (0 : Nat)).1
      = [(3, ResponseEntry.mk ResponseAction.Persistent (4 : Nat))] ∧
    (updateExceptResponse ([] : List (Nat × ResponseEntry Nat)) 3 (0 : Nat)).1 = [] := by
  refine ⟨?_, ?_, ?_, ?_⟩
  · exact ((c2_dispatch_spec _ 3 0).1 ⟨ResponseAction.Temporal, 4⟩ (by decide)).1
  · exact (((c2_dispatch_spec _ 3 0).1 ⟨ResponseAction.Temporal, 4⟩ (by decide)).2.1 rfl).2
  · exact ((c2_dispatch_spec _ 3 0).1 ⟨ResponseAction.Persistent, 4⟩ (by decide)).2.2 rfl
  · exact ((c2_dispatch_spec _ 3 0).2 (by decide)).1

/-- Claim C9 (confirmed): calling `execute` while the child process is
already executing returns immediately: the state — in particular the
stored program and argument list — is unchanged and no process start
occurs. -/
theorem c9_execute_noop_when_executing {H : Type} (st : State H)
    (preArguments : List (List Char)) (debuggerProgram : List Char)
    (h : isExecuting st = true) :
    execute st preArguments debuggerProgram = st := by
  simp [execute, h]

/-- Witness for C9: a running session is left exactly as it is by
`execute`. -/
theorem c9_execute_noop_witness :
    isExecuting runningState = true ∧
    execute runningState [['a']] ['g'] = runningState :=
  ⟨by decide, c9_execute_noop_when_executing runningState [['a']] ['g'] (by decide)⟩

/-- Claim C10 (confirmed): `initDebugger` stores the argument list
unconditionally; the GDB adapter is selected if and only if the program
string contains `"gdb"`, and for any other program the debugger field
is left as it was — in particular still unset when it was unset. -/
theorem c10_initDebugger_spec {H : Type} (st : State H) (program : List Char)
    (arguments : List (List Char)) :
    (initDebugger st program arguments).processArguments = arguments ∧
    (initDebugger st program arguments).debugger
      = (if qstringContains program ['g', 'd', 'b'] then some AdapterKind.GDBDebugger
         else st.debugger) ∧
    (qstringContains program ['g', 'd', 'b'] = false → st.debugger = none →
      (initDebugger st program arguments).debugger = none) := by
  refine ⟨rfl, rfl, ?_⟩
  intro hc hd
  simp [initDebugger, hc, hd]

/-- Witness for C10: a program without `"gdb"` stores the arguments but
selects no adapter; `"gdb"` itself selects the GDB adapter. -/
theorem c10_initDebugger_witness :
    (initDebugger freshState ['c', 'c'] [['a']]).processArguments = [['a']] ∧
    (initDebugger freshState ['c', 'c'] [['a']]).debugger = none ∧
    (initDebugger freshState ['g', 'd', 'b'] []).debugger = some AdapterKind.GDBDebugger := by
  refine ⟨?_, ?_, ?_⟩
  · exact (c10_initDebugger_spec freshState ['c', 'c'] [['a']]).1
  · exact (c10_initDebugger_spec freshState ['c', 'c'] [['a']]).2.2 (by decide) rfl
  · exact ((c10_initDebugger_spec freshState ['g', 'd', 'b'] []).2.1).trans (by decide)

/-- Claim C8 (confirmed, against the spec-modelled interpreters): every
result delivered to a breakpoint interpreter — insert, remove by id, or
remove-all — whose result class is `error` leaves the breakpoint table
unchanged and surfaces the descriptive failure message instead of a
mutation. -/
theorem c8_error_result_no_mutation (hd : BreakHandler) (r : BreakResult)
    (t : BreakTable) (he : r.rclass = ResultClass.error) :
    runBreakHandler hd r t = (t, some r.msg) := by
  obtain ⟨rc, bk, msg⟩ := r
  simp only at he
  subst he
  cases hd <;> rfl

/-- Witness for C8: an error-class result delivered to each of the three
interpreters over a one-entry table changes nothing and surfaces the
message. -/
theorem c8_error_result_no_mutation_witness :
    runBreakHandler BreakHandler.insertH
        ⟨ResultClass.error, none, ['e']⟩ [(1, ⟨1, ['m'], 10, true⟩)]
      = ([(1, ⟨1, ['m'], 10, true⟩)], some ['e']) ∧
    runBreakHandler (BreakHandler.removeH 1)
        ⟨ResultClass.error, none, ['e']⟩ [(1, ⟨1, ['m'], 10, true⟩)]
      = ([(1, ⟨1, ['m'], 10, true⟩)], some ['e']) ∧
    runBreakHandler BreakHandler.removeAllH
        ⟨ResultClass.error, none, ['e']⟩ [(1, ⟨1, ['m'], 10, true⟩)]
      = ([(1, ⟨1, ['m'], 10, true⟩)], some ['e']) :=
  ⟨c8_error_result_no_mutation BreakHandler.insertH _ _ rfl,
   c8_error_result_no_mutation (BreakHandler.removeH 1) _ _ rfl,
   c8_error_result_no_mutation BreakHandler.removeAllH _ _ rfl⟩

/-- Claim C4, counterexample: in a fresh running session,
`stackListFrames`, `stackListVariables` and `threadInfo` register no
response handler for the token they issue — the correlation table does
not contain that token afterwards (it stays untouched), refuting "it
registers a response handler for the token it issues" which is what
being built from `commandAndResponse` would produce.  Each of them does
perform a Sync Bridge wait after writing. -/
theorem c4_no_handler_registered_counterexample :
    hashContains (stackListFrames runningState ['f']).state.resposeExpected
      runningState.tokenCounter = false ∧
    hashContains (stackListVariables runningState ['v']).state.resposeExpected
      runningState.tokenCounter = false ∧
    hashContains (threadInfo runningState ['t']).state.resposeExpected
      runningState.tokenCounter = false ∧
    (stackListFrames runningState ['f']).syncs = [SyncAction.waitL] := by
  decide

/-- Claim C4 as amended (proved): the blocking operations
`stackListFrames`, `stackListVariables` and `threadInfo` are built from
the plain fire-and-forget `command` — they leave the correlation table
untouched, registering no response handler — and then perform exactly
one Sync Bridge `wait()`, which is released by `fireLocker()` invoked
from the adapter's output handling rather than by a registered
handler. -/
theorem c4_blocking_ops_amended {H : Type} (st : State H)
    (fText vText tText : List Char) :
    stackListFrames st fText
      = ⟨(command st fText).state, (command st fText).writes, [SyncAction.waitL]⟩ ∧
    (stackListFrames st fText).state.resposeExpected = st.resposeExpected ∧
    stackListVariables st vText
      = ⟨(command st vText).state, (command st vText).writes, [SyncAction.waitL]⟩ ∧
    (stackListVariables st vText).state.resposeExpected = st.resposeExpected ∧
    threadInfo st tText
      = ⟨(command st tText).state, (command st tText).writes, [SyncAction.waitL]⟩ ∧
    (threadInfo st tText).state.resposeExpected = st.resposeExpected :=
  ⟨rfl, rfl, rfl, rfl, rfl, rfl⟩

/-- Claim C5, counterexample: with the session in the `NotRunning`
state, `command` is not rejected — the full token-prefixed line is still
passed to the process channel's write and the token counter still
advances, refuting "nothing is written to the process channel and the
operation is rejected". -/
theorem c5_unguarded_command_counterexample :
    notRunningGdb.processState = ProcState.NotRunning ∧
    (command notRunningGdb ['r', 'u', 'n']).writes
      = [['0', '0', '0', '0', '0', '0', 'r', 'u', 'n', '\n']] ∧
    (command notRunningGdb ['r', 'u', 'n']).writes ≠ [] ∧
    (command notRunningGdb ['r', 'u', 'n']).state.tokenCounter = 1 := by
  decide

/-- Claim C5 as amended (proved): `command` performs no session-state
check whatsoever: whatever the process state — `NotRunning` included —
it writes the token-prefixed line to the process channel, advances the
token counter, and leaves the process state untouched; and
`commandAndResponse` and the blocking operations, which are built on
`command`, likewise perform their write.  Only `execute` is guarded by
`isExecuting`. -/
theorem c5_command_unguarded_amended {H : Type} (st : State H)
    (cmd fText : List Char) (hdl : H) (a : ResponseAction)
    (hs : st.processState = ProcState.NotRunning) :
    (command st cmd).writes = [pad6 st.tokenCounter ++ cmd ++ ['\n']] ∧
    (command st cmd).state.tokenCounter = (st.tokenCounter + 1) % 999999 ∧
    (command st cmd).state.processState = ProcState.NotRunning ∧
    (commandAndResponse st cmd hdl a).writes
      = [pad6 st.tokenCounter ++ cmd ++ ['\n']] ∧
    (stackListFrames st fText).writes = [pad6 st.tokenCounter ++ fText ++ ['\n']] :=
  ⟨rfl, rfl, by rw [show (command st cmd).state.processState = st.processState from rfl, hs],
   rfl, rfl⟩

/-- Witness for C5 (amended): the fresh not-running session still gets
its command written and its counter advanced. -/
theorem c5_command_unguarded_amended_witness :
    (command freshState ['r']).writes = [pad6 freshState.tokenCounter ++ ['r'] ++ ['\n']] ∧
    (command freshState ['r']).state.tokenCounter = (freshState.tokenCounter + 1) % 999999 :=
  ⟨(c5_command_unguarded_amended freshState ['r'] ['f'] 0 ResponseAction.Temporal rfl).1,
   (c5_command_unguarded_amended freshState ['r'] ['f'] 0 ResponseAction.Temporal rfl).2.1⟩

/-- Two `Temporal` entries registered in a fresh running session (tokens
0 and 1), both still pending. -/
def twoPendingState : State Nat :=
  (commandAndResponse
    (commandAndResponse runningState ['a'] 7 ResponseAction.Temporal).state
    ['b'] 8 ResponseAction.Temporal).state

/-- Claim C6, counterexample: when the process exits while 2 correlation
entries are pending, exactly one termination signal is raised — but the
pending entries are NOT discarded: the correlation table still holds
both entries afterwards, refuting "every pending entry is discarded". -/
theorem c6_entries_retained_counterexample :
    twoPendingState.resposeExpected.length = 2 ∧
    (onProcessFinished twoPendingState).1.resposeExpected
      = twoPendingState.resposeExpected ∧
    (onProcessFinished twoPendingState).1.resposeExpected.length = 2 ∧
    (onProcessFinished twoPendingState).2 = [ManagerSignal.gdbProcessTerminated] := by
  decide

/-- Claim C6 as amended (proved): when the child process exits, exactly
one termination signal is raised and no pending handler is invoked, but
the pending correlation entries are retained — the process merely moves
to `NotRunning`; the entries are only discarded by the next
process-started event. -/
theorem c6_process_finished_amended {H : Type} (st : State H) :
    onProcessFinished st
      = ({ st with processState := ProcState.NotRunning },
         [ManagerSignal.gdbProcessTerminated]) ∧
    (onProcessFinished st).1.resposeExpected = st.resposeExpected ∧
    (onProcessFinished st).2.length = 1 ∧
    (onProcessStarted (onProcessFinished st).1).resposeExpected = [] :=
  ⟨rfl, rfl, rfl, rfl⟩

/-- Projection of `command`: the successor token counter. -/
theorem command_state_tokenCounter {H : Type} (st : State H) (c : List Char) :
    (command st c).state.tokenCounter = (st.tokenCounter + 1) % 999999 := rfl

/-- Projection of `commandAndResponse`: the successor correlation table
is a plain replace-on-collision insert at the current token. -/
theorem commandAndResponse_state_resposeExpected {H : Type} (st : State H)
    (c : List Char) (hdl : H) (a : ResponseAction) :
    (commandAndResponse st c hdl a).state.resposeExpected
      = hashInsert st.resposeExpected st.tokenCounter ⟨a, hdl⟩ := rfl

/-- Projection of `commandAndResponse`: the line written. -/
theorem commandAndResponse_writes_eq {H : Type} (st : State H)
    (c : List Char) (hdl : H) (a : ResponseAction) :
    (commandAndResponse st c hdl a).writes
      = [pad6 st.tokenCounter ++ c ++ ['\n']] := rfl

/-- A fresh running session after 999,998 fire-and-forget commands: the
token counter stands at 999,998, the last value before the wrap. -/
def nearWrapState : State Nat :=
  (List.replicate 999998 ['x']).foldl commandStep runningState

/-- Claim C1, counterexample: the 999,999th command of a fresh session
is issued with the counter at 999,998, and afterwards the counter is 0 —
not `(999998 + 1) % 1000000 = 999999` — because the source advances the
counter modulo 999,999 (`d->tokenCounter = (d->tokenCounter + 1) %
999999`), refuting "the counter then advances by exactly 1 modulo
1,000,000". -/
theorem c1_token_wrap_counterexample :
    nearWrapState.tokenCounter = 999998 ∧
    (command nearWrapState ['x']).state.tokenCounter = 0 ∧
    (command nearWrapState ['x']).state.tokenCounter
      ≠ (nearWrapState.tokenCounter + 1) % 1000000 := by
  have htc : nearWrapState.tokenCounter = 999998 := by
    have h := foldl_command_tokenCounter (H := Nat) (List.replicate 999998 ['x'])
      runningState (by decide)
    have hrc : runningState.tokenCounter = 0 := rfl
    rw [hrc, List.length_replicate] at h
    unfold nearWrapState
    exact h.trans (by decide)
  have hnext := command_state_tokenCounter nearWrapState ['x']
  refine ⟨htc, ?_, ?_⟩
  · rw [hnext, htc]
  · rw [hnext, htc]
    decide

/-- Claim C1 as amended (proved): for every command issued after a
process-started event the emitted line begins with the 6-digit
zero-padded decimal rendering of the current token counter, the counter
then advances by exactly 1 modulo 999,999 (staying in range), and in
particular the 3rd command of a fresh session is emitted as `000002`
followed by the command text and a newline. -/
theorem c1_token_line_amended {H : Type} (st : State H)
    (cmd c1 c2 c3 : List Char) (h : st.tokenCounter < 999999) :
    (command st cmd).writes = [pad6 st.tokenCounter ++ cmd ++ ['\n']] ∧
    (pad6 st.tokenCounter).length = 6 ∧
    (pad6 st.tokenCounter ++ cmd ++ ['\n']).take 6 = pad6 st.tokenCounter ∧
    (command st cmd).state.tokenCounter = (st.tokenCounter + 1) % 999999 ∧
    (command st cmd).state.tokenCounter < 999999 ∧
    (command (command (command (onProcessStarted st) c1).state c2).state c3).writes
      = [['0', '0', '0', '0', '0', '2'] ++ c3 ++ ['\n']] := by
  have h6 : (pad6 st.tokenCounter).length = 6 := pad6_length _ (by omega)
  refine ⟨rfl, h6, ?_, rfl, Nat.mod_lt _ (by norm_num), rfl⟩
  rw [List.append_assoc, ← h6, List.take_left]

/-- Witness for C1 (amended) at the fresh session: the first command is
emitted as `000000` plus the text, the counter moves to 1, and the
third command of the session carries token `000002`. -/
theorem c1_token_line_amended_witness :
    (command freshState ['r']).writes
      = [pad6 freshState.tokenCounter ++ ['r'] ++ ['\n']] ∧
    (pad6 freshState.tokenCounter).length = 6 ∧
    (command (command (command (onProcessStarted freshState) ['a']).state ['b']).state ['c']).writes
      = [['0', '0', '0', '0', '0', '2'] ++ ['c'] ++ ['\n']] :=
  ⟨(c1_token_line_amended freshState ['r'] ['a'] ['b'] ['c'] (by decide)).1,
   (c1_token_line_amended freshState ['r'] ['a'] ['b'] ['c'] (by decide)).2.1,
   (c1_token_line_amended freshState ['r'] ['a'] ['b'] ['c'] (by decide)).2.2.2.2.2⟩

/-- A running session in which token 5 has a pending `Temporal` entry
(handler 7) and, after a full wrap of 999,998 further commands, the
token counter has come back around to 5. -/
def preWrapState : State Nat :=
  (commandAndResponse ((List.replicate 5 ['x']).foldl commandStep runningState)
    ['y'] 7 ResponseAction.Temporal).state

/-- `preWrapState` driven all the way around the 999,999-value token
space: the counter is 5 again while token 5 is still pending. -/
def wrappedState : State Nat :=
  (List.replicate 999998 ['x']).foldl commandStep preWrapState

/-- Claim C7, counterexample: issuing `commandAndResponse` while the
current token (5) still has a pending entry raises no
`DuplicateTokenError` and detects nothing: the `QHash::insert` silently
replaces the pending entry (handler 7 is lost, handler 9 takes its
place) and the command is emitted normally. -/
theorem c7_duplicate_token_counterexample :
    wrappedState.tokenCounter = 5 ∧
    hashValue wrappedState.resposeExpected 5
      = some ⟨ResponseAction.Temporal, 7⟩ ∧
    hashValue (commandAndResponse wrappedState ['z'] 9 ResponseAction.Temporal).state.resposeExpected 5
      = some ⟨ResponseAction.Temporal, 9⟩ ∧
    (commandAndResponse wrappedState ['z'] 9 ResponseAction.Temporal).writes ≠ [] := by
  have hpre : preWrapState.tokenCounter = 6 := by decide
  have htab : preWrapState.resposeExpected = [(5, ⟨ResponseAction.Temporal, 7⟩)] := by decide
  have htc : wrappedState.tokenCounter = 5 := by
    have h := foldl_command_tokenCounter (H := Nat) (List.replicate 999998 ['x'])
      preWrapState (by rw [hpre]; decide)
    rw [hpre, List.length_replicate] at h
    unfold wrappedState
    exact h.trans (by decide)
  have hwt : wrappedState.resposeExpected = [(5, ⟨ResponseAction.Temporal, 7⟩)] := by
    have h := foldl_command_resposeExpected (H := Nat) (List.replicate 999998 ['x']) preWrapState
    rw [htab] at h
    unfold wrappedState
    exact h
  have hins := commandAndResponse_state_resposeExpected wrappedState ['z'] 9 ResponseAction.Temporal
  refine ⟨htc, ?_, ?_, ?_⟩
  · rw [hwt]; decide
  · rw [hins, hwt, htc]; decide
  · have hw := commandAndResponse_writes_eq wrappedState ['z'] 9 ResponseAction.Temporal
    rw [hw]
    simp

/-- Claim C7 as amended (proved): registering a handler for a token that
already has a pending entry is neither detected nor rejected:
`commandAndResponse` always performs a plain replace-on-collision
insert at the current token counter — the previous entry is silently
overwritten — and emits the command exactly as `command` does. -/
theorem c7_duplicate_overwrite_amended {H : Type} (st : State H)
    (cmd : List Char) (hdl : H) (a : ResponseAction) :
    (commandAndResponse st cmd hdl a).state.resposeExpected
      = hashInsert st.resposeExpected st.tokenCounter ⟨a, hdl⟩ ∧
    hashValue (commandAndResponse st cmd hdl a).state.resposeExpected st.tokenCounter
      = some ⟨a, hdl⟩ ∧
    (commandAndResponse st cmd hdl a).writes = (command st cmd).writes ∧
    (commandAndResponse st cmd hdl a).state.tokenCounter
      = (st.tokenCounter + 1) % 999999 :=
  ⟨rfl, by simp [hashInsert, hashValue, List.find?], rfl, rfl⟩

end DebugManager
